import Mathlib

/-!
Shallow embedding of the SuperCoach-AI admin dashboard's authenticated
data-fetch layer (session store, request gateway, resource fetch hooks,
create-student modal) together with proofs about the spec's claims.

The embedding follows `src/unnamed/part_003` (auth helpers, gateway,
hooks, mock datasets), `src/unnamed/part_000` (CreateStudentModal) and
`src/src/components/AuthPage.tsx` (login storage).  JavaScript strings
are Lean `String`s, `localStorage` entries are `Option String`
(`none` = key absent), and JSON numbers are `Nat` (the code never does
fractional arithmetic on the values the claims mention).
-/

namespace SuperCoach

/-- JavaScript truthiness of a possibly-absent string
(`null` and `""` are falsy, every other string truthy). -/
def jsTruthyStr : Option String → Bool
  | none => false
  | some s => s ≠ ""

/-- Decimal digit characters to values: models the digit handling of
`parseInt` (only characters `0`–`9` matter for base 10). -/
def digitVal (c : Char) : Nat := c.toNat - 48

/-- Fuel-driven decimal rendering of a natural number, big-endian.
With fuel `n + 1` this is exactly the decimal numeral of `n`; fuel keeps
the recursion structural so that the kernel can evaluate it. -/
def natToCharsFuel : Nat → Nat → List Char
  | 0, _ => []
  | fuel + 1, n =>
    if n < 10 then [Nat.digitChar n]
    else natToCharsFuel fuel (n / 10) ++ [Nat.digitChar (n % 10)]

/-- Decimal numeral of a natural number; models JavaScript
`String(n)` / template interpolation of a non-negative integer. -/
def natToChars (n : Nat) : List Char := natToCharsFuel (n + 1) n

/-- String form of `natToChars`. -/
def natToString (n : Nat) : String := ⟨natToChars n⟩

/-- Value of a big-endian list of decimal digit characters. -/
def valOfDigits (cs : List Char) : Nat :=
  cs.foldl (fun a c => a * 10 + digitVal c) 0

/-- Models JavaScript `parseInt(s)` on the strings this client stores:
the longest leading run of decimal digits is parsed; `none` models the
`NaN` result when there is no digit (sign/whitespace prefixes, which the
stored values never have, are not modelled). -/
def jsParseInt (s : String) : Option Nat :=
  let ds := s.data.takeWhile Char.isDigit
  if ds.isEmpty then none else some (valOfDigits ds)

/-- Models JavaScript `String.prototype.trim` (strip leading and
trailing whitespace). -/
def jsTrim (s : String) : String :=
  ⟨((s.data.dropWhile Char.isWhitespace).reverse.dropWhile Char.isWhitespace).reverse⟩

/-- `takesPre sub l` : `sub` is a prefix of `l` (executable). -/
def takesPre : List Char → List Char → Bool
  | [], _ => true
  | _ :: _, [] => false
  | a :: as, b :: bs => a == b && takesPre as bs

/-- `containsSub sub hay` : `sub` occurs contiguously in `hay`. -/
def containsSub (sub : List Char) : List Char → Bool
  | [] => takesPre sub []
  | c :: t => takesPre sub (c :: t) || containsSub sub t

/-- Models JavaScript `String.prototype.includes`. -/
def jsIncludes (s sub : String) : Bool := containsSub sub.data s.data

/-- Models JavaScript `Array.prototype.join(sep)`. -/
def joinWith (sep : String) : List String → String
  | [] => ""
  | [x] => x
  | x :: y :: xs => x ++ sep ++ joinWith sep (y :: xs)

/-- Characters `encodeURIComponent` leaves unescaped:
ASCII alphanumerics and `- _ . ! ~ * ' ( )`. -/
def isUnreservedURIChar (c : Char) : Bool :=
  c.isAlphanum || c == '-' || c == '_' || c == '.' || c == '!' ||
    c == '~' || c == '*' || c.toNat == 39 || c.toNat == 40 || c.toNat == 41

/-- Uppercase hexadecimal digit. -/
def hexDigitChar (n : Nat) : Char :=
  if n < 10 then Char.ofNat (48 + n) else Char.ofNat (55 + n)

/-- Percent-encoding of one byte, uppercase hex as in JavaScript. -/
def percentEncodeByte (b : UInt8) : List Char :=
  ['%', hexDigitChar (b.toNat / 16), hexDigitChar (b.toNat % 16)]

/-- Models JavaScript `encodeURIComponent`: unreserved characters kept,
everything else percent-encoded from its UTF-8 bytes. -/
def encodeURIComponent (s : String) : String :=
  ⟨s.data.foldr
    (fun c acc =>
      (if isUnreservedURIChar c then [c]
       else ((String.singleton c).toUTF8.toList.map percentEncodeByte).flatten) ++ acc)
    []⟩

/-- The four `localStorage` keys the client uses for a session
(`access_token`, `refresh_token`, `coach`, `expires_at`); each field is
the stored string or `none` when the key is absent.  The `coach` entry
holds the `JSON.stringify`-serialized coach record. -/
structure AuthStore where
  access_token : Option String
  refresh_token : Option String
  coach : Option String
  expires_at : Option String
deriving DecidableEq, Repr

/-- `getAuthToken` (src/unnamed/part_003:236-238):
`localStorage.getItem('access_token')`. -/
def getAuthToken (store : AuthStore) : Option String := store.access_token

/-- `getRefreshToken` (src/unnamed/part_003:240-242):
`localStorage.getItem('refresh_token')`. -/
def getRefreshToken (store : AuthStore) : Option String := store.refresh_token

/-- `isAuthenticated` (src/unnamed/part_003:244-257): false when the
access token or the `expires_at` entry is absent or empty, otherwise
`Date.now() < parseInt(expiresAt)` (a `NaN` expiry compares false). -/
def isAuthenticated (store : AuthStore) (now : Nat) : Bool :=
  if jsTruthyStr (getAuthToken store) = false ∨ jsTruthyStr store.expires_at = false then
    false
  else
    match store.expires_at with
    | some e =>
      match jsParseInt e with
      | some v => decide (now < v)
      | none => false
    | none => false

/-- `clearAuthData` (src/unnamed/part_003:259-264): removes all four
session keys. -/
def clearAuthData (_ : AuthStore) : AuthStore := ⟨none, none, none, none⟩

/-- Session write performed by `handleLogin`
(src/src/components/AuthPage.tsx:170-173): stores both tokens, the
serialized coach record, and `String(Date.now() + expires_in * 1000)`. -/
structure LoginData where
  access_token : String
  refresh_token : String
  coachSerialized : String
  expires_in : Nat
deriving DecidableEq, Repr

/-- The store after `handleLogin`'s four `localStorage.setItem` calls. -/
def storeLoginSession (_ : AuthStore) (resp : LoginData) (now : Nat) : AuthStore :=
  { access_token := some resp.access_token
    refresh_token := some resp.refresh_token
    coach := some resp.coachSerialized
    expires_at := some (natToString (now + resp.expires_in * 1000)) }

/-- An HTTP response as the client observes it: `status`, the
`response.text()` body used for error messages, and the decoded
`response.json()` payload used on success.  (JSON decoding itself is
outside the embedding: the oracle hands the decoded value.) -/
structure Resp (α : Type) where
  status : Nat
  text : String
  body : α
deriving DecidableEq, Repr

/-- `response.ok`: status in `[200, 300)`. -/
def respOk {α : Type} (r : Resp α) : Bool := 200 ≤ r.status && r.status < 300

/-- Decoded body of a successful `/api/auth/refresh` response
(src/unnamed/part_003:300-305). -/
structure RefreshData where
  access_token : String
  refresh_token : String
  expires_in : Nat
deriving DecidableEq, Repr

/-- The `Authorization` header value sent by `getAuthHeaders`
(src/unnamed/part_003:316-322): present with the bearer token iff the
stored access token is truthy. -/
def authHeader (store : AuthStore) : Option String :=
  match getAuthToken store with
  | some t => if t = "" then none else some t
  | none => none

/-- `refreshAuthToken` (src/unnamed/part_003:272-314).  The refresh
endpoint's behaviour is given as `refreshResp`: `none` models a network
error (or unparsable body) making `fetch`/`json()` throw, `some r` a
response.  Returns the value of the JS promise (`some newAccessToken`
or `null`) together with the store after the side effects
(`redirectToLogin` clears the store on every failure path; success
overwrites the two tokens and the expiry). -/
def refreshAuthToken (store : AuthStore) (now : Nat)
    (refreshResp : Option (Resp RefreshData)) : Option String × AuthStore :=
  if jsTruthyStr (getRefreshToken store) = false then
    (none, clearAuthData store)
  else
    match refreshResp with
    | none => (none, clearAuthData store)
    | some r =>
      if respOk r = false then (none, clearAuthData store)
      else
        (some r.body.access_token,
         { store with
            access_token := some r.body.access_token
            refresh_token := some r.body.refresh_token
            expires_at := some (natToString (now + r.body.expires_in * 1000)) })

/-- Result of one `authenticatedFetch` call: the returned response or
thrown error message, the store after all side effects, the number of
`fetch` calls made to the resource URL, the number of token-refresh
attempts, and the `Authorization` header value of each resource call in
order. -/
structure FetchOutcome (α : Type) where
  result : Except String (Resp α)
  store : AuthStore
  resourceCalls : Nat
  refreshAttempts : Nat
  sentAuth : List (Option String)
deriving Repr

/-- `authenticatedFetch` (src/unnamed/part_003:348-387).  The resource
endpoint is an oracle `resource i` giving the response to the `i`-th
`fetch` of the resource URL.  Pre-check failure redirects (clearing the
store) and throws; a 401 first response triggers exactly one
`refreshAuthToken`, then one retry iff the refreshed token is truthy;
every other first response is returned as-is. -/
def authenticatedFetch {α : Type} (store : AuthStore) (now : Nat)
    (resource : Nat → Resp α) (refreshResp : Option (Resp RefreshData)) :
    FetchOutcome α :=
  if isAuthenticated store now = false then
    { result := .error "Authentication required", store := clearAuthData store
      resourceCalls := 0, refreshAttempts := 0, sentAuth := [] }
  else
    let r1 := resource 0
    if r1.status = 401 then
      let res := refreshAuthToken store now refreshResp
      if jsTruthyStr res.1 then
        { result := .ok (resource 1), store := res.2
          resourceCalls := 2, refreshAttempts := 1
          sentAuth := [authHeader store, authHeader res.2] }
      else
        { result := .error "Authentication failed", store := res.2
          resourceCalls := 1, refreshAttempts := 1
          sentAuth := [authHeader store] }
    else
      { result := .ok r1, store := store
        resourceCalls := 1, refreshAttempts := 0
        sentAuth := [authHeader store] }

/-- `handleAuthError` (src/unnamed/part_003:324-345): maps a non-2xx
status and the error body text to the thrown error message. -/
def handleAuthError (status : Nat) (errorText : String) : String :=
  if status = 401 then
    if jsIncludes errorText "expired" then
      "Your session has expired. Please log in again."
    else if jsIncludes errorText "invalid" then
      "Invalid authentication credentials. Please log in again."
    else "Authentication failed. Please log in again."
  else if status = 403 then "You do not have permission to access this resource."
  else if status = 404 then "The requested resource was not found."
  else if status = 429 then "Too many requests. Please try again later."
  else if status = 500 then "Server error. Please try again later."
  else "Request failed with status " ++ natToString status ++ ". " ++ errorText

/-- Result of `makeAuthenticatedAPICall`: decoded payload or thrown
error message, plus the same accounting as `FetchOutcome`. -/
structure APIOutcome (α : Type) where
  result : Except String α
  store : AuthStore
  resourceCalls : Nat
  refreshAttempts : Nat
  sentAuth : List (Option String)
deriving Repr

/-- `makeAuthenticatedAPICall` (src/unnamed/part_003:390-430): wraps
`authenticatedFetch`; a non-ok response with status 401 redirects
(clearing the store) and throws `Authentication failed`, any other
non-ok response throws `handleAuthError status text`, an ok response
yields its decoded body; thrown errors propagate unchanged. -/
def makeAuthenticatedAPICall {α : Type} (store : AuthStore) (now : Nat)
    (resource : Nat → Resp α) (refreshResp : Option (Resp RefreshData)) :
    APIOutcome α :=
  let fo := authenticatedFetch store now resource refreshResp
  match fo.result with
  | .error e =>
    { result := .error e, store := fo.store, resourceCalls := fo.resourceCalls
      refreshAttempts := fo.refreshAttempts, sentAuth := fo.sentAuth }
  | .ok r =>
    if respOk r then
      { result := .ok r.body, store := fo.store, resourceCalls := fo.resourceCalls
        refreshAttempts := fo.refreshAttempts, sentAuth := fo.sentAuth }
    else if r.status = 401 then
      { result := .error "Authentication failed", store := clearAuthData fo.store
        resourceCalls := fo.resourceCalls, refreshAttempts := fo.refreshAttempts
        sentAuth := fo.sentAuth }
    else
      { result := .error (handleAuthError r.status r.text), store := fo.store
        resourceCalls := fo.resourceCalls, refreshAttempts := fo.refreshAttempts
        sentAuth := fo.sentAuth }

/-- The `{data, loading, error}` state every resource fetch hook keeps
(`useState(null)`, `useState(true)`, `useState(null)`). -/
structure FetchState (α : Type) where
  data : Option α
  loading : Bool
  error : Option String
deriving DecidableEq, Repr

/-- Hook state as created on mount. -/
def initialFetchState (α : Type) : FetchState α := ⟨none, true, none⟩

/-- A chat message record (`Message`), as in the mock data
(src/unnamed/part_003:882-985). -/
structure Message where
  id : Nat
  senderId : Nat
  senderType : String
  content : String
  timestamp : String
  type : String
deriving DecidableEq, Repr

/-- A `Conversation` record (src/unnamed/part_003:988-1019). -/
structure Conversation where
  id : Nat
  studentId : Nat
  superCoachId : Nat
  courseId : Nat
  courseVersion : Nat
  messages : List Message
  startedAt : String
  lastMessageAt : String
deriving DecidableEq, Repr

/-- `mockMessages` (src/unnamed/part_003:882-923). -/
def mockMessages : List Message :=
  [⟨1, 1, "student",
    "Hi Coach Maya! I\x27m having trouble understanding the Facebook advertising module. Could you help me?",
    "2024-02-25T10:00:00Z", "text"⟩,
   ⟨2, 1, "supercoach",
    "Hi Sarah! I\x27d be happy to help you with Facebook advertising. What specific part are you finding challenging? Is it the audience targeting or the ad creation process?",
    "2024-02-25T10:15:00Z", "text"⟩,
   ⟨3, 1, "student",
    "I\x27m confused about how to set up custom audiences. The interface seems different from what\x27s shown in the video.",
    "2024-02-25T10:30:00Z", "text"⟩,
   ⟨4, 1, "supercoach",
    "That\x27s a great question! Facebook does update their interface regularly. Let me walk you through the current process step by step. First, go to your Ads Manager and click on \x27Audiences\x27 in the main menu...",
    "2024-02-25T10:45:00Z", "text"⟩,
   ⟨5, 1, "student",
    "Thank you so much! That makes it much clearer. I\x27ll try it now and let you know how it goes.",
    "2024-02-25T11:00:00Z", "text"⟩]

/-- `mockMessages2` (src/unnamed/part_003:925-958). -/
def mockMessages2 : List Message :=
  [⟨6, 3, "student",
    "Coach Alexander, I\x27ve completed the team building module and I\x27m really excited to apply these concepts in my workplace!",
    "2024-02-24T14:00:00Z", "text"⟩,
   ⟨7, 2, "supercoach",
    "Excellent work, Emma! Your enthusiasm is wonderful to see. How do you plan to implement the team building strategies we discussed?",
    "2024-02-24T14:30:00Z", "text"⟩,
   ⟨8, 3, "student",
    "I\x27m thinking of starting with the trust-building exercises during our weekly team meetings. Do you think that\x27s a good approach?",
    "2024-02-24T15:00:00Z", "text"⟩,
   ⟨9, 2, "supercoach",
    "That\x27s a strategic approach! Starting with trust-building is foundational. Remember to be consistent and patient - trust develops over time. Keep me updated on your progress!",
    "2024-02-24T15:15:00Z", "text"⟩]

/-- `mockMessages3` (src/unnamed/part_003:960-985). -/
def mockMessages3 : List Message :=
  [⟨10, 2, "supercoach",
    "Hi Mike! I noticed you haven\x27t been active in the course for a few days. Is everything okay? I\x27m here to help if you\x27re facing any challenges.",
    "2024-02-23T09:00:00Z", "text"⟩,
   ⟨11, 2, "student",
    "Hi Coach Maya, sorry for the delay. I\x27ve been really busy at work and finding it hard to keep up with the course material.",
    "2024-02-26T18:30:00Z", "text"⟩,
   ⟨12, 1, "supercoach",
    "I completely understand! Work-life balance can be challenging. Would it help if we created a more flexible study schedule that works with your work commitments?",
    "2024-02-26T19:00:00Z", "text"⟩]

/-- `mockConversations` (src/unnamed/part_003:988-1019): the fixed
built-in fallback conversation set. -/
def mockConversations : List Conversation :=
  [⟨1, 1, 1, 1, 2, mockMessages, "2024-02-25T10:00:00Z", "2024-02-25T11:00:00Z"⟩,
   ⟨2, 3, 2, 2, 1, mockMessages2, "2024-02-24T14:00:00Z", "2024-02-24T15:15:00Z"⟩,
   ⟨3, 2, 1, 4, 1, mockMessages3, "2024-02-23T09:00:00Z", "2024-02-26T19:00:00Z"⟩]

/-- One complete run of `useConversations`'s request lifecycle
(src/unnamed/part_003:1443-1473) given the prior hook state and the
`makeAuthenticatedAPICall` result: success stores the payload; a
failure whose message contains `404` or `not found` substitutes
`mockConversations` and clears the error; any other failure stores the
message; `finally` clears `loading`. -/
def useConversationsStep (prior : FetchState (List Conversation))
    (result : Except String (List Conversation)) : FetchState (List Conversation) :=
  match result with
  | .ok cs => { data := some cs, loading := false, error := none }
  | .error msg =>
    if jsIncludes msg "404" || jsIncludes msg "not found" then
      { data := some mockConversations, loading := false, error := none }
    else
      { data := prior.data, loading := false, error := some msg }

/-- The state of `useConversations` after its mount effect completes
(src/unnamed/part_003:1438-1486): when authenticated it runs the fetch
lifecycle against the gateway; otherwise it stores the mock data and
stops loading. -/
def useConversationsMount (store : AuthStore) (now : Nat)
    (resource : Nat → Resp (List Conversation))
    (refreshResp : Option (Resp RefreshData)) : FetchState (List Conversation) :=
  if isAuthenticated store now then
    useConversationsStep (initialFetchState _)
      (makeAuthenticatedAPICall store now resource refreshResp).result
  else
    { data := some mockConversations, loading := false, error := none }

/-- A course record as the `/api/courses` endpoint returns it
(fields read by `useCourses`, src/unnamed/part_003:1038-1051). -/
structure CourseApiRec where
  id : Nat
  title : String
  description : String
  student_count : Nat
  completion_rate : Nat
  is_active : Bool
  version : Option Nat
  created_at : String
deriving DecidableEq, Repr

/-- A course record as the frontend keeps it after `useCourses`'s
field mapping. -/
structure CourseRec where
  id : Nat
  title : String
  description : String
  student_count : Nat
  completion_rate : Nat
  is_active : Bool
  created_at : String
  enrolledStudents : Nat
  completionRate : Nat
  status : String
  version : Nat
  superCoachId : Option Nat
  baseId : Nat
  isCurrentVersion : Bool
  updatedAt : String
deriving DecidableEq, Repr

/-- The per-course transform in `useCourses`
(src/unnamed/part_003:1038-1051); `course.version || 1` makes a missing
or zero version 1 (JavaScript `||` on a falsy number). -/
def transformCourse (c : CourseApiRec) : CourseRec :=
  { id := c.id, title := c.title, description := c.description
    student_count := c.student_count, completion_rate := c.completion_rate
    is_active := c.is_active, created_at := c.created_at
    enrolledStudents := c.student_count
    completionRate := c.completion_rate
    status := if c.is_active then "live" else "draft"
    version := match c.version with
      | some v => if v = 0 then 1 else v
      | none => 1
    superCoachId := none
    baseId := c.id
    isCurrentVersion := true
    updatedAt := c.created_at }

/-- One complete run of `useCourses`'s request lifecycle
(src/unnamed/part_003:1028-1065): success stores the transformed list;
failure stores the message and leaves `data` untouched; `finally`
clears `loading`. -/
def useCoursesStep (prior : FetchState (List CourseRec))
    (result : Except String (List CourseApiRec)) : FetchState (List CourseRec) :=
  match result with
  | .ok cs => { data := some (cs.map transformCourse), loading := false, error := none }
  | .error msg => { data := prior.data, loading := false, error := some msg }

/-- The `/api/dashboard/metrics` payload (src/unnamed/part_003:220-225);
numeric JSON values modelled as `Nat` (the hook stores them verbatim). -/
structure DashboardMetrics where
  live_courses : Nat
  total_students : Nat
  avg_progress : Nat
  need_help : Nat
deriving DecidableEq, Repr

/-- One complete run of `useDashboardMetrics`'s request lifecycle
(src/unnamed/part_003:439-460): the payload is stored as-is on success;
failure stores the message and leaves `data` untouched. -/
def useDashboardMetricsStep (prior : FetchState DashboardMetrics)
    (result : Except String DashboardMetrics) : FetchState DashboardMetrics :=
  match result with
  | .ok m => { data := some m, loading := false, error := none }
  | .error msg => { data := prior.data, loading := false, error := some msg }

/-- Filter parameters of `useStudents`
(src/unnamed/part_003:1081-1085); `none` models an omitted/undefined
field. -/
structure StudentFilters where
  course_id : Option Nat
  status : Option String
  search : Option String
deriving DecidableEq, Repr

/-- The `course_id` pushes of the query builder
(src/unnamed/part_003:1100-1102): pushed iff `filters?.course_id` is
truthy (present and non-zero). -/
def courseIdParam (f : StudentFilters) : List String :=
  match f.course_id with
  | some n => if n = 0 then [] else ["course_id=" ++ natToString n]
  | none => []

/-- The `status` pushes (src/unnamed/part_003:1103-1105): pushed iff
truthy (present and non-empty), URI-encoded. -/
def statusParam (f : StudentFilters) : List String :=
  match f.status with
  | some s => if s = "" then [] else ["status=" ++ encodeURIComponent s]
  | none => []

/-- The `search` pushes (src/unnamed/part_003:1106-1108). -/
def searchParam (f : StudentFilters) : List String :=
  match f.search with
  | some s => if s = "" then [] else ["search=" ++ encodeURIComponent s]
  | none => []

/-- The `queryParams` array built by `useStudents`
(src/unnamed/part_003:1098-1108). -/
def studentsQueryParams (f : StudentFilters) : List String :=
  courseIdParam f ++ statusParam f ++ searchParam f

/-- The request URL of `useStudents` (src/unnamed/part_003:1097-1112):
base URL plus `?`-prefixed `&`-joined params when any are present. -/
def buildStudentsURL (f : StudentFilters) : String :=
  "http://localhost:3100/api/students" ++
    (if (studentsQueryParams f).length > 0 then
      "?" ++ joinWith "&" (studentsQueryParams f)
     else "")

/-- A student record as `/api/students` returns it (fields read by
`useStudents`, src/unnamed/part_003:1117-1126). -/
structure StudentApiRec where
  id : Nat
  name : String
  email : String
  status : String
  created_at : String
  last_active : Option String
  courses_enrolled : Option Nat
deriving DecidableEq, Repr

/-- A student record after `useStudents`'s field mapping. -/
structure StudentRec where
  id : Nat
  name : String
  email : String
  status : String
  created_at : String
  last_active : Option String
  enrolledCourses : List Nat
  progress : List Nat
  joinedAt : String
  lastActivity : String
  courses_enrolled : Nat
deriving DecidableEq, Repr

/-- The per-student transform in `useStudents`
(src/unnamed/part_003:1117-1126).  `fmt` stands for
`d => new Date(d).toLocaleString()`, a locale/environment-dependent
formatter kept abstract; `student.last_active ? ... : 'No activity'`
is JS truthiness. -/
def transformStudent (fmt : String → String) (s : StudentApiRec) : StudentRec :=
  { id := s.id, name := s.name, email := s.email, status := s.status
    created_at := s.created_at, last_active := s.last_active
    enrolledCourses := [], progress := []
    joinedAt := s.created_at
    lastActivity := match s.last_active with
      | some d => if d = "" then "No activity" else fmt d
      | none => "No activity"
    courses_enrolled := match s.courses_enrolled with
      | some n => n
      | none => 0 }

/-- Events a `useStudents` hook instance processes, in the order the
JavaScript event loop delivers them.  `start` is an effect run
beginning (`setLoading(true); setError(null)` and a request going out,
src/unnamed/part_003:1093-1094); `resolve` is some in-flight request
settling, whose closure writes state unconditionally — the code has no
staleness guard (no cleanup, no request id, no filter comparison),
src/unnamed/part_003:1114-1139. -/
inductive StudentsHookEvent where
  | start : StudentsHookEvent
  | resolve : Except String (List StudentApiRec) → StudentsHookEvent

/-- State change of one `useStudents` event. -/
def studentsApplyEvent (fmt : String → String) (s : FetchState (List StudentRec)) :
    StudentsHookEvent → FetchState (List StudentRec)
  | .start => { s with loading := true, error := none }
  | .resolve (.ok students) =>
    { s with data := some (students.map (transformStudent fmt)), loading := false }
  | .resolve (.error msg) => { s with error := some msg, loading := false }

/-- A `useStudents` instance's state after a sequence of events. -/
def studentsRun (fmt : String → String) (s : FetchState (List StudentRec))
    (events : List StudentsHookEvent) : FetchState (List StudentRec) :=
  events.foldl (studentsApplyEvent fmt) s

/-- Whether some `.` sits strictly inside the list (neither first nor
last position): the backtracking of `[^\s@]+\.[^\s@]+` succeeds exactly
when such a dot exists, because `.` itself belongs to the class. -/
def hasInteriorDot (cs : List Char) : Bool :=
  (List.range cs.length).any fun i =>
    decide (0 < i) && decide (i + 1 < cs.length) && (cs.getD i ' ' == '.')

/-- Models the test of `/^[^\s@]+@[^\s@]+\.[^\s@]+$/`
(src/unnamed/part_000:46): since the classes exclude `@`, the string
must contain exactly one `@`, no whitespace, a non-empty part before
it, and an interior dot after it. -/
def matchesEmailRegex (s : String) : Bool :=
  match s.data.splitOn '@' with
  | [a, b] =>
    !a.isEmpty && a.all (fun c => !c.isWhitespace) &&
      !b.isEmpty && b.all (fun c => !c.isWhitespace) && hasInteriorDot b
  | _ => false

/-- Characters of the class `[\d\s\-\(\)]` (40/41 are `(` and `)`). -/
def phoneCharOk (c : Char) : Bool :=
  c.isDigit || c.isWhitespace || c == '-' || c.toNat == 40 || c.toNat == 41

/-- Models the test of `/^[+]?[\d\s\-\(\)]{10,}$/`
(src/unnamed/part_000:55): optional leading `+`, then at least ten
characters of the class. -/
def matchesPhoneRegex (s : String) : Bool :=
  let rest := match s.data with
    | c :: t => if c == '+' then t else c :: t
    | [] => []
  decide (rest.length ≥ 10) && rest.all phoneCharOk

/-- Models `s.replace(/\s/g, '')`. -/
def stripWs (s : String) : String := ⟨s.data.filter (fun c => !c.isWhitespace)⟩

/-- The create-student form fields (src/unnamed/part_000:22-26). -/
structure StudentFormData where
  name : String
  email : String
  phone : String
deriving DecidableEq, Repr

/-- The `fieldErrors` map (src/unnamed/part_000:31): `none` models an
absent key, `some ""` a key cleared to the empty string by
`handleInputChange`. -/
structure FieldErrors where
  name : Option String
  email : Option String
  phone : Option String
deriving DecidableEq, Repr

/-- The errors map `validateForm` builds (src/unnamed/part_000:34-66);
a field is assigned a message exactly when one of its checks fails, in
the source's order.  (JavaScript `.length` counts UTF-16 units, Lean
counts code points; both numbers compare to 2 identically for the
strings at issue.) -/
def computeFieldErrors (fd : StudentFormData) : FieldErrors :=
  { name :=
      if jsTrim fd.name = "" then some "Name is required"
      else if (jsTrim fd.name).length < 2 then some "Name must be at least 2 characters"
      else none
    email :=
      if jsTrim fd.email = "" then some "Email is required"
      else if matchesEmailRegex fd.email = false then some "Please enter a valid email address"
      else none
    phone :=
      if jsTrim fd.phone = "" then some "Phone number is required"
      else if matchesPhoneRegex (stripWs fd.phone) = false then some "Please enter a valid phone number"
      else none }

/-- `validateForm`'s return value: true iff no check assigned an
error. -/
def validateForm (fd : StudentFormData) : Bool :=
  (computeFieldErrors fd).name.isNone && (computeFieldErrors fd).email.isNone &&
    (computeFieldErrors fd).phone.isNone

/-- Local state of `CreateStudentModal` (src/unnamed/part_000:22-31). -/
structure ModalState where
  formData : StudentFormData
  isLoading : Bool
  showSuccess : Bool
  error : Option String
  fieldErrors : FieldErrors
deriving DecidableEq, Repr

/-- State on first render of the modal. -/
def initialModalState : ModalState :=
  ⟨⟨"", "", ""⟩, false, false, none, ⟨none, none, none⟩⟩

/-- A form field selector. -/
inductive FormField where
  | name | email | phone
deriving DecidableEq, Repr

/-- Field update of the form data. -/
def setFormField (fd : StudentFormData) : FormField → String → StudentFormData
  | .name, v => { fd with name := v }
  | .email, v => { fd with email := v }
  | .phone, v => { fd with phone := v }

/-- Field lookup in the errors map. -/
def getFieldError (fe : FieldErrors) : FormField → Option String
  | .name => fe.name
  | .email => fe.email
  | .phone => fe.phone

/-- Field update of the errors map. -/
def setFieldError (fe : FieldErrors) : FormField → Option String → FieldErrors
  | .name, v => { fe with name := v }
  | .email, v => { fe with email := v }
  | .phone, v => { fe with phone := v }

/-- `handleInputChange` (src/unnamed/part_000:123-133): writes the
field, clears that field's error to `''` when it was truthy, and
clears the top-level error when it was set (so it is `none` after
every input). -/
def handleInputChange (st : ModalState) (f : FormField) (v : String) : ModalState :=
  { st with
    formData := setFormField st.formData f v
    fieldErrors :=
      if jsTruthyStr (getFieldError st.fieldErrors f) then
        setFieldError st.fieldErrors f (some "")
      else st.fieldErrors
    error := none }

/-- `handleSubmit` (src/unnamed/part_000:69-121) run to completion.
`net` is the outcome of the `POST /api/students` should it be issued
(`.error msg` covers both a non-ok response, whose message comes from
the body's `detail` or the default, and a thrown network error).
Returns the state after the run together with the number of network
requests issued.  The `setTimeout` continuation that later hides the
success panel and closes the modal is a separate event-loop callback
and is not part of this run. -/
def handleSubmitStep (st : ModalState) (net : Except String Unit) : ModalState × Nat :=
  let st1 := { st with error := none, fieldErrors := computeFieldErrors st.formData }
  if validateForm st.formData = false then (st1, 0)
  else if st.isLoading then (st1, 0)
  else
    match net with
    | .ok _ => ({ st1 with showSuccess := true, formData := ⟨"", "", ""⟩, isLoading := false }, 1)
    | .error msg => ({ st1 with error := some msg, isLoading := false }, 1)

/-- `handleClose` (src/unnamed/part_000:135-143): ignored while
loading, otherwise resets everything. -/
def handleClose (st : ModalState) : ModalState :=
  if st.isLoading then st
  else ⟨⟨"", "", ""⟩, st.isLoading, false, none, ⟨none, none, none⟩⟩

/-- The interactions that mutate the modal's state. -/
inductive ModalEvent where
  | input : FormField → String → ModalEvent
  | submit : Except String Unit → ModalEvent
  | close : ModalEvent

/-- One event's effect, with the number of network requests issued. -/
def modalStep (st : ModalState) : ModalEvent → ModalState × Nat
  | .input f v => (handleInputChange st f v, 0)
  | .submit net => handleSubmitStep st net
  | .close => (handleClose st, 0)

/-- State after one event. -/
def modalStepState (st : ModalState) (e : ModalEvent) : ModalState :=
  (modalStep st e).1

/-- The modal states reachable from first render through its own
handlers. -/
inductive ModalReachable : ModalState → Prop where
  | init : ModalReachable initialModalState
  | next (st : ModalState) (e : ModalEvent) :
      ModalReachable st → ModalReachable (modalStepState st e)

/-! ### Helper lemmas -/

theorem digitVal_digitChar {d : Nat} (h : d < 10) : digitVal (Nat.digitChar d) = d := by
  interval_cases d <;> decide

theorem isDigit_digitChar {d : Nat} (h : d < 10) : (Nat.digitChar d).isDigit = true := by
  interval_cases d <;> decide

theorem valOfDigits_append (l : List Char) (c : Char) :
    valOfDigits (l ++ [c]) = valOfDigits l * 10 + digitVal c := by
  simp [valOfDigits, List.foldl_append]

theorem valOfDigits_natToCharsFuel :
    ∀ (fuel n : Nat), n < fuel → valOfDigits (natToCharsFuel fuel n) = n := by
  intro fuel
  induction fuel with
  | zero => omega
  | succ fuel ih =>
    intro n hn
    by_cases h10 : n < 10
    · simp [natToCharsFuel, h10, valOfDigits, digitVal_digitChar h10]
    · have hpos : 0 < n := by omega
      have hdiv : n / 10 < n := Nat.div_lt_self hpos (by omega)
      have hlt : n / 10 < fuel := by omega
      simp only [natToCharsFuel, if_neg h10, valOfDigits_append, ih _ hlt,
        digitVal_digitChar (Nat.mod_lt n (by omega))]
      omega

theorem natToCharsFuel_all_isDigit :
    ∀ (fuel n : Nat), n < fuel → ∀ c ∈ natToCharsFuel fuel n, c.isDigit = true := by
  intro fuel
  induction fuel with
  | zero => omega
  | succ fuel ih =>
    intro n hn
    by_cases h10 : n < 10
    · simp [natToCharsFuel, h10, isDigit_digitChar h10]
    · have hpos : 0 < n := by omega
      have hdiv : n / 10 < n := Nat.div_lt_self hpos (by omega)
      have hlt : n / 10 < fuel := by omega
      intro c hc
      simp only [natToCharsFuel, if_neg h10, List.mem_append, List.mem_singleton] at hc
      rcases hc with hc | hc
      · exact ih _ hlt c hc
      · subst hc; exact isDigit_digitChar (Nat.mod_lt n (by omega))

theorem natToCharsFuel_ne_nil :
    ∀ (fuel n : Nat), n < fuel → natToCharsFuel fuel n ≠ [] := by
  intro fuel n hn
  cases fuel with
  | zero => omega
  | succ fuel =>
    by_cases h10 : n < 10 <;> simp [natToCharsFuel, h10]

/-- `parseInt` inverts the client's decimal rendering: reading back a
stored `String(n)` yields `n`. -/
theorem jsParseInt_natToString (n : Nat) : jsParseInt (natToString n) = some n := by
  have hall : ∀ c ∈ natToChars n, Char.isDigit c = true :=
    natToCharsFuel_all_isDigit (n + 1) n (by omega)
  have htw : (natToChars n).takeWhile Char.isDigit = natToChars n :=
    List.takeWhile_eq_self_iff.mpr hall
  have hne : natToChars n ≠ [] := natToCharsFuel_ne_nil (n + 1) n (by omega)
  have hval : valOfDigits (natToChars n) = n :=
    valOfDigits_natToCharsFuel (n + 1) n (by omega)
  simp only [jsParseInt, natToString, htw]
  rw [if_neg (by simpa [List.isEmpty_iff] using hne)]
  exact congrArg some hval

/-- Two strings with different prefixes of length `k` stay different
after arbitrary suffixes are appended. -/
theorem append_str_ne (p q : String) (k : Nat)
    (hk1 : k ≤ p.data.length) (hk2 : k ≤ q.data.length)
    (hne : p.data.take k ≠ q.data.take k) :
    ∀ (v w : String), p ++ v ≠ q ++ w := by
  intro v w h
  apply hne
  have hd : p.data ++ v.data = q.data ++ w.data := by
    have := congrArg String.data h
    simpa [String.data_append] using this
  calc p.data.take k = (p.data ++ v.data).take k :=
        (List.take_append_of_le_length hk1).symm
    _ = (q.data ++ w.data).take k := by rw [hd]
    _ = q.data.take k := List.take_append_of_le_length hk2

/-! ### Claim theorems -/

/-- Claim C1, counterexample: a stored session whose refresh token is
absent but whose access token is present and unexpired is accepted by
the session-validity check, so validity is not equivalent to "both
tokens present and now < expiresAt". -/
theorem isAuthenticated_true_without_refresh_token :
    isAuthenticated ⟨some "token", none, none, some "100"⟩ 0 = true ∧
      (⟨some "token", none, none, some "100"⟩ : AuthStore).refresh_token = none := by
  exact ⟨rfl, rfl⟩

/-- Claim C1, amended: the session-validity check returns true iff the
access token entry is present and non-empty and the expiry entry is
present and parses to a number strictly above `now`; the refresh token
is never consulted. -/
theorem isAuthenticated_iff (store : AuthStore) (now : Nat) :
    isAuthenticated store now = true ↔
      ∃ t e v, store.access_token = some t ∧ t ≠ "" ∧ store.expires_at = some e ∧
        jsParseInt e = some v ∧ now < v := by
  obtain ⟨a, r, c, e⟩ := store
  cases a with
  | none => simp [isAuthenticated, getAuthToken, jsTruthyStr]
  | some t =>
    cases e with
    | none => simp [isAuthenticated, getAuthToken, jsTruthyStr]
    | some ex =>
      by_cases ht : t = ""
      · simp [isAuthenticated, getAuthToken, jsTruthyStr, ht]
      · cases hp : jsParseInt ex with
        | none => simp [isAuthenticated, getAuthToken, jsTruthyStr, ht, hp]
        | some v =>
          have hex : ex ≠ "" := by
            intro h
            rw [h] at hp
            simp [jsParseInt] at hp
          simp [isAuthenticated, getAuthToken, jsTruthyStr, ht, hp, hex]

/-- Claim C9: storing a session on login and reading it back through
the store accessors is the identity on both token strings, the
serialized coach record, and the expiry value (`parseInt` recovers the
exact number that was rendered with `String(...)`). -/
theorem storeLoginSession_roundtrip (store : AuthStore) (resp : LoginData) (now : Nat) :
    getAuthToken (storeLoginSession store resp now) = some resp.access_token ∧
      getRefreshToken (storeLoginSession store resp now) = some resp.refresh_token ∧
      (storeLoginSession store resp now).coach = some resp.coachSerialized ∧
      (storeLoginSession store resp now).expires_at =
        some (natToString (now + resp.expires_in * 1000)) ∧
      jsParseInt (natToString (now + resp.expires_in * 1000)) =
        some (now + resp.expires_in * 1000) :=
  ⟨rfl, rfl, rfl, rfl, jsParseInt_natToString _⟩

/-- Claim C7: when a run of the `useCourses` or `useDashboardMetrics`
request lifecycle fails, the hook stores the failure message, clears
`loading`, and keeps `data` exactly as it was before the request; no
failure path writes `data`. -/
theorem hooks_failure_preserves_data (prior : FetchState (List CourseRec)) (msg : String)
    (priorM : FetchState DashboardMetrics) (msgM : String) :
    useCoursesStep prior (.error msg) = ⟨prior.data, false, some msg⟩ ∧
      useDashboardMetricsStep priorM (.error msgM) = ⟨priorM.data, false, some msgM⟩ :=
  ⟨rfl, rfl⟩

/-- Claim C6, counterexample: a 502 response is not mapped to the
server-error message; it falls to the generic default branch, so not
every 5xx status is mapped to the `ServerError` kind. -/
theorem handleAuthError_502_not_server_error :
    handleAuthError 502 "Bad Gateway" = "Request failed with status 502. Bad Gateway" ∧
      handleAuthError 502 "Bad Gateway" ≠ "Server error. Please try again later." := by
  exact ⟨rfl, by decide⟩

/-- Claim C6, amended: 403, 404, 429 map to the Forbidden, NotFound and
RateLimited messages; within the 5xx range only exactly 500 maps to the
ServerError message — every status above 500 (such as 502 or 503) falls
to the generic default message carrying the status number and error
text. -/
theorem handleAuthError_status_mapping (t : String) :
    handleAuthError 403 t = "You do not have permission to access this resource." ∧
      handleAuthError 404 t = "The requested resource was not found." ∧
      handleAuthError 429 t = "Too many requests. Please try again later." ∧
      handleAuthError 500 t = "Server error. Please try again later." ∧
      ∀ s : Nat, 500 < s →
        handleAuthError s t = "Request failed with status " ++ natToString s ++ ". " ++ t := by
  refine ⟨rfl, rfl, rfl, rfl, ?_⟩
  intro s hs
  simp only [handleAuthError]
  rw [if_neg (by omega), if_neg (by omega), if_neg (by omega), if_neg (by omega),
    if_neg (by omega)]

/-- Claim C6 witness: the amended mapping applied at status 503. -/
theorem handleAuthError_status_mapping_witness :
    handleAuthError 503 "oops" = "Request failed with status 503. oops" :=
  (handleAuthError_status_mapping "oops").2.2.2.2 503 (by omega)

/-- Claim C3: when the first resource request returns 401 and the token
refresh succeeds (a refresh token is stored and the refresh endpoint
answers 2xx with a usable access token), the gateway makes exactly two
calls to the resource URL — the second carrying the refreshed bearer
token — attempts exactly one refresh, and returns the second response
whatever its status. -/
theorem gateway_401_refresh_success_retries_once {α : Type} (store : AuthStore) (now : Nat)
    (resource : Nat → Resp α) (rr : Resp RefreshData)
    (hauth : isAuthenticated store now = true)
    (h401 : (resource 0).status = 401)
    (hrt : jsTruthyStr (getRefreshToken store) = true)
    (hok : respOk rr = true)
    (hnew : rr.body.access_token ≠ "") :
    (authenticatedFetch store now resource (some rr)).resourceCalls = 2 ∧
      (authenticatedFetch store now resource (some rr)).refreshAttempts = 1 ∧
      (authenticatedFetch store now resource (some rr)).result = .ok (resource 1) ∧
      (authenticatedFetch store now resource (some rr)).sentAuth =
        [authHeader store, some rr.body.access_token] := by
  have hr : refreshAuthToken store now (some rr) =
      (some rr.body.access_token,
       { store with
          access_token := some rr.body.access_token
          refresh_token := some rr.body.refresh_token
          expires_at := some (natToString (now + rr.body.expires_in * 1000)) }) := by
    simp [refreshAuthToken, hrt, hok]
  simp [authenticatedFetch, hauth, h401, hr, jsTruthyStr, hnew, authHeader, getAuthToken]

/-- Claim C3 witness: a concrete 401-then-refresh-then-retry run where
the retry itself is a 500. -/
theorem gateway_401_refresh_success_retries_once_witness :
    (authenticatedFetch ⟨some "tok", some "ref", some "co", some "99"⟩ 0
        (fun i => if i = 0 then ⟨401, "t1", (0 : Nat)⟩ else ⟨500, "t2", (7 : Nat)⟩)
        (some ⟨200, "", ⟨"newtok", "newref", 3600⟩⟩)).resourceCalls = 2 ∧
      (authenticatedFetch ⟨some "tok", some "ref", some "co", some "99"⟩ 0
        (fun i => if i = 0 then ⟨401, "t1", (0 : Nat)⟩ else ⟨500, "t2", (7 : Nat)⟩)
        (some ⟨200, "", ⟨"newtok", "newref", 3600⟩⟩)).refreshAttempts = 1 ∧
      (authenticatedFetch ⟨some "tok", some "ref", some "co", some "99"⟩ 0
        (fun i => if i = 0 then ⟨401, "t1", (0 : Nat)⟩ else ⟨500, "t2", (7 : Nat)⟩)
        (some ⟨200, "", ⟨"newtok", "newref", 3600⟩⟩)).result =
        .ok ((fun i => if i = 0 then ⟨401, "t1", (0 : Nat)⟩ else ⟨500, "t2", (7 : Nat)⟩) 1) ∧
      (authenticatedFetch ⟨some "tok", some "ref", some "co", some "99"⟩ 0
        (fun i => if i = 0 then ⟨401, "t1", (0 : Nat)⟩ else ⟨500, "t2", (7 : Nat)⟩)
        (some ⟨200, "", ⟨"newtok", "newref", 3600⟩⟩)).sentAuth =
        [authHeader ⟨some "tok", some "ref", some "co", some "99"⟩, some "newtok"] :=
  gateway_401_refresh_success_retries_once
    ⟨some "tok", some "ref", some "co", some "99"⟩ 0
    (fun i => if i = 0 then ⟨401, "t1", (0 : Nat)⟩ else ⟨500, "t2", (7 : Nat)⟩)
    ⟨200, "", ⟨"newtok", "newref", 3600⟩⟩
    (by decide) (by decide) (by decide) (by decide) (by decide)

/-- Claim C4: when the first resource request returns 401 and the
refresh fails — no stored refresh token, a non-2xx refresh response, or
a refresh network error — the gateway makes exactly one call to the
resource URL, clears all four session keys, and throws the
authentication failure, which `makeAuthenticatedAPICall` propagates;
the original request is not retried. -/
theorem gateway_401_refresh_failure_no_retry {α : Type} (store : AuthStore) (now : Nat)
    (resource : Nat → Resp α) (refreshResp : Option (Resp RefreshData))
    (hauth : isAuthenticated store now = true)
    (h401 : (resource 0).status = 401)
    (hfail : jsTruthyStr (getRefreshToken store) = false ∨ refreshResp = none ∨
      ∃ rr, refreshResp = some rr ∧ respOk rr = false) :
    (authenticatedFetch store now resource refreshResp).resourceCalls = 1 ∧
      (authenticatedFetch store now resource refreshResp).result =
        .error "Authentication failed" ∧
      (authenticatedFetch store now resource refreshResp).store = ⟨none, none, none, none⟩ ∧
      (makeAuthenticatedAPICall store now resource refreshResp).result =
        .error "Authentication failed" := by
  have hr : refreshAuthToken store now refreshResp = (none, clearAuthData store) := by
    rcases hfail with h | h | ⟨rr, hrr, hko⟩
    · simp [refreshAuthToken, h]
    · subst h
      simp only [refreshAuthToken]
      split <;> rfl
    · subst hrr
      simp only [refreshAuthToken, hko]
      split <;> simp [hko]
  refine ⟨?_, ?_, ?_, ?_⟩ <;>
    simp [authenticatedFetch, makeAuthenticatedAPICall, hauth, h401, hr, jsTruthyStr,
      clearAuthData]

/-- Claim C4 witness: a concrete 401 with the refresh token missing
from the store. -/
theorem gateway_401_refresh_failure_no_retry_witness :
    (authenticatedFetch ⟨some "tok", none, none, some "99"⟩ 0
        (fun _ => ⟨401, "t1", (0 : Nat)⟩) none).resourceCalls = 1 ∧
      (authenticatedFetch ⟨some "tok", none, none, some "99"⟩ 0
        (fun _ => ⟨401, "t1", (0 : Nat)⟩) none).result = .error "Authentication failed" ∧
      (authenticatedFetch ⟨some "tok", none, none, some "99"⟩ 0
        (fun _ => ⟨401, "t1", (0 : Nat)⟩) none).store = ⟨none, none, none, none⟩ ∧
      (makeAuthenticatedAPICall ⟨some "tok", none, none, some "99"⟩ 0
        (fun _ => ⟨401, "t1", (0 : Nat)⟩) none).result = .error "Authentication failed" :=
  gateway_401_refresh_failure_no_retry ⟨some "tok", none, none, some "99"⟩ 0
    (fun _ => ⟨401, "t1", (0 : Nat)⟩) none (by decide) (by decide) (Or.inl (by decide))

/-- Claim C5: mounting `useConversations` with a valid session while
the conversations endpoint answers 404 ends with the built-in fallback
conversation set as `data`, no error, and loading finished. -/
theorem useConversations_404_fallback (store : AuthStore) (now : Nat)
    (resource : Nat → Resp (List Conversation)) (refreshResp : Option (Resp RefreshData))
    (hauth : isAuthenticated store now = true)
    (h404 : (resource 0).status = 404) :
    useConversationsMount store now resource refreshResp =
      { data := some mockConversations, loading := false, error := none } := by
  have hmsg : (makeAuthenticatedAPICall store now resource refreshResp).result =
      .error "The requested resource was not found." := by
    simp [makeAuthenticatedAPICall, authenticatedFetch, hauth, h404, respOk, handleAuthError]
  simp only [useConversationsMount, hauth, if_true, useConversationsStep, hmsg]
  rw [if_pos (by decide)]

/-- Claim C5 witness: a concrete valid session and a concrete 404
response. -/
theorem useConversations_404_fallback_witness :
    useConversationsMount ⟨some "tok", some "ref", some "co", some "99"⟩ 0
        (fun _ => ⟨404, "Not Found", []⟩) none =
      { data := some mockConversations, loading := false, error := none } :=
  useConversations_404_fallback ⟨some "tok", some "ref", some "co", some "99"⟩ 0
    (fun _ => ⟨404, "Not Found", []⟩) none (by decide) (by decide)

/-- Claim C2 (code bug): `useStudents` has no staleness guard, so when
the hook fetches for filters F1 and then F2 but F2's response resolves
before F1's, the stale F1 response overwrites the newer state: the
final `data` holds F1's records, not F2's. -/
theorem useStudents_stale_response_overwrites :
    studentsRun id (initialFetchState (List StudentRec))
        [.start, .start,
         .resolve (.ok [⟨2, "Alex Thompson", "alex.thompson@email.com", "stuck",
           "2024-02-10", none, none⟩]),
         .resolve (.ok [⟨1, "Mike Chen", "mike.chen@email.com", "new",
           "2024-01-25", none, none⟩])] =
      ⟨some ([⟨1, "Mike Chen", "mike.chen@email.com", "new",
           "2024-01-25", none, none⟩].map (transformStudent id)), false, none⟩ ∧
      ([⟨1, "Mike Chen", "mike.chen@email.com", "new",
           "2024-01-25", none, none⟩] : List StudentApiRec).map (transformStudent id) ≠
        ([⟨2, "Alex Thompson", "alex.thompson@email.com", "stuck",
           "2024-02-10", none, none⟩] : List StudentApiRec).map (transformStudent id) := by
  exact ⟨rfl, by decide⟩

theorem mem_courseIdParam {f : StudentFilters} {x : String} (h : x ∈ courseIdParam f) :
    ∃ n, f.course_id = some n ∧ n ≠ 0 ∧ x = "course_id=" ++ natToString n := by
  cases hc : f.course_id with
  | none => simp [courseIdParam, hc] at h
  | some n =>
    by_cases hn : n = 0
    · simp [courseIdParam, hc, hn] at h
    · simp only [courseIdParam, hc, if_neg hn, List.mem_singleton] at h
      exact ⟨n, rfl, hn, h⟩

theorem mem_statusParam {f : StudentFilters} {x : String} (h : x ∈ statusParam f) :
    ∃ s, f.status = some s ∧ s ≠ "" ∧ x = "status=" ++ encodeURIComponent s := by
  cases hc : f.status with
  | none => simp [statusParam, hc] at h
  | some s =>
    by_cases hs : s = ""
    · simp [statusParam, hc, hs] at h
    · simp only [statusParam, hc, if_neg hs, List.mem_singleton] at h
      exact ⟨s, rfl, hs, h⟩

theorem mem_searchParam {f : StudentFilters} {x : String} (h : x ∈ searchParam f) :
    ∃ s, f.search = some s ∧ s ≠ "" ∧ x = "search=" ++ encodeURIComponent s := by
  cases hc : f.search with
  | none => simp [searchParam, hc] at h
  | some s =>
    by_cases hs : s = ""
    · simp [searchParam, hc, hs] at h
    · simp only [searchParam, hc, if_neg hs, List.mem_singleton] at h
      exact ⟨s, rfl, hs, h⟩

/-- Claim C8, counterexample: the filter set `{course_id: 0}` has its
`course_id` defined, yet the built URL carries no query string at all —
the query reflects JavaScript truthiness, not definedness. -/
theorem studentsURL_defined_filter_omitted :
    (⟨some 0, none, none⟩ : StudentFilters).course_id = some 0 ∧
      buildStudentsURL ⟨some 0, none, none⟩ = "http://localhost:3100/api/students" ∧
      jsIncludes (buildStudentsURL ⟨some 0, none, none⟩) "course_id" = false :=
  ⟨rfl, rfl, by decide⟩

/-- Claim C8, amended: the students request URL's query string contains
exactly the filters that are truthy (present and non-zero / non-empty);
a filter that is omitted, undefined, zero, or empty never appears.  In
particular `{status: "stuck"}` yields `...students?status=stuck`. -/
theorem studentsQueryParams_truthy_iff (f : StudentFilters) :
    ((∃ v, "course_id=" ++ v ∈ studentsQueryParams f) ↔ ∃ n, f.course_id = some n ∧ n ≠ 0) ∧
      ((∃ v, "status=" ++ v ∈ studentsQueryParams f) ↔ ∃ s, f.status = some s ∧ s ≠ "") ∧
      ((∃ v, "search=" ++ v ∈ studentsQueryParams f) ↔ ∃ s, f.search = some s ∧ s ≠ "") ∧
      buildStudentsURL ⟨none, some "stuck", none⟩ =
        "http://localhost:3100/api/students?status=stuck" := by
  have hcs : ∀ v w : String, "course_id=" ++ v ≠ "status=" ++ w :=
    append_str_ne _ _ 7 (by decide) (by decide) (by decide)
  have hcr : ∀ v w : String, "course_id=" ++ v ≠ "search=" ++ w :=
    append_str_ne _ _ 7 (by decide) (by decide) (by decide)
  have hsc : ∀ v w : String, "status=" ++ v ≠ "course_id=" ++ w :=
    append_str_ne _ _ 7 (by decide) (by decide) (by decide)
  have hsr : ∀ v w : String, "status=" ++ v ≠ "search=" ++ w :=
    append_str_ne _ _ 2 (by decide) (by decide) (by decide)
  have hrc : ∀ v w : String, "search=" ++ v ≠ "course_id=" ++ w :=
    append_str_ne _ _ 7 (by decide) (by decide) (by decide)
  have hrs : ∀ v w : String, "search=" ++ v ≠ "status=" ++ w :=
    append_str_ne _ _ 2 (by decide) (by decide) (by decide)
  refine ⟨⟨?_, ?_⟩, ⟨?_, ?_⟩, ⟨?_, ?_⟩, rfl⟩
  · rintro ⟨v, hv⟩
    simp only [studentsQueryParams, List.append_assoc, List.mem_append] at hv
    rcases hv with hv | hv | hv
    · obtain ⟨n, hn, hn0, _⟩ := mem_courseIdParam hv
      exact ⟨n, hn, hn0⟩
    · obtain ⟨s, _, _, hx⟩ := mem_statusParam hv
      exact absurd hx (hcs v _)
    · obtain ⟨s, _, _, hx⟩ := mem_searchParam hv
      exact absurd hx (hcr v _)
  · rintro ⟨n, hn, hn0⟩
    exact ⟨natToString n, by simp [studentsQueryParams, courseIdParam, hn, hn0]⟩
  · rintro ⟨v, hv⟩
    simp only [studentsQueryParams, List.append_assoc, List.mem_append] at hv
    rcases hv with hv | hv | hv
    · obtain ⟨n, _, _, hx⟩ := mem_courseIdParam hv
      exact absurd hx (hsc v _)
    · obtain ⟨s, hs, hs0, _⟩ := mem_statusParam hv
      exact ⟨s, hs, hs0⟩
    · obtain ⟨s, _, _, hx⟩ := mem_searchParam hv
      exact absurd hx (hsr v _)
  · rintro ⟨s, hs, hs0⟩
    exact ⟨encodeURIComponent s, by simp [studentsQueryParams, statusParam, hs, hs0]⟩
  · rintro ⟨v, hv⟩
    simp only [studentsQueryParams, List.append_assoc, List.mem_append] at hv
    rcases hv with hv | hv | hv
    · obtain ⟨n, _, _, hx⟩ := mem_courseIdParam hv
      exact absurd hx (hrc v _)
    · obtain ⟨s, _, _, hx⟩ := mem_statusParam hv
      exact absurd hx (hrs v _)
    · obtain ⟨s, hs, hs0, _⟩ := mem_searchParam hv
      exact ⟨s, hs, hs0⟩
  · rintro ⟨s, hs, hs0⟩
    exact ⟨encodeURIComponent s, by simp [studentsQueryParams, searchParam, hs, hs0]⟩

/-- Invariant of the modal's reachable states: whenever a top-level
error is displayed, the current form data passed validation (the error
came from a POST whose payload validated, and every later input change
clears the error). -/
theorem modal_error_implies_valid (st : ModalState) (h : ModalReachable st) :
    st.error ≠ none → validateForm st.formData = true := by
  induction h with
  | init => intro hne; exact absurd rfl hne
  | next st e _ ih =>
    cases e with
    | input f v =>
      intro hne
      exact absurd rfl hne
    | close =>
      simp only [modalStepState, modalStep, handleClose]
      split
      · exact ih
      · intro hne; exact absurd rfl hne
    | submit net =>
      simp only [modalStepState, modalStep, handleSubmitStep]
      by_cases hv : validateForm st.formData = false
      · rw [if_pos hv]
        intro hne; exact absurd rfl hne
      · rw [if_neg hv]
        by_cases hl : st.isLoading
        · rw [if_pos hl]
          intro hne; exact absurd rfl hne
        · rw [if_neg hl]
          cases net with
          | ok u => intro hne; exact absurd rfl hne
          | error msg =>
            intro _
            simpa using hv

/-- Claim C10: for every reachable modal state whose form data fails
client-side validation, submitting issues no network request and
changes nothing but the per-field validation messages (the top-level
error, already `none` in every such reachable state, stays `none`);
and a network request is issued only when validation succeeds. -/
theorem createStudent_invalid_no_network (st : ModalState) (net : Except String Unit) :
    (ModalReachable st → validateForm st.formData = false →
      modalStep st (.submit net) =
        ({ st with fieldErrors := computeFieldErrors st.formData }, 0)) ∧
      (0 < (modalStep st (.submit net)).2 → validateForm st.formData = true) := by
  constructor
  · intro hreach hv
    have herr : st.error = none := by
      by_contra hne
      rw [modal_error_implies_valid st hreach hne] at hv
      simp at hv
    simp only [modalStep, handleSubmitStep, if_pos hv]
    rw [herr]
  · intro hpos
    by_cases hv : validateForm st.formData = false
    · simp only [modalStep, handleSubmitStep, if_pos hv] at hpos
      omega
    · simpa using hv

/-- Claim C10 witness: the modal reached by typing `a@b.com` into the
email field and `5551234567` into the phone field, leaving the name
empty; submitting fails validation, issues no request, and only sets
the field messages. -/
theorem createStudent_invalid_no_network_witness :
    validateForm (modalStepState (modalStepState initialModalState
        (.input .email "a@b.com")) (.input .phone "5551234567")).formData = false ∧
      modalStep (modalStepState (modalStepState initialModalState
          (.input .email "a@b.com")) (.input .phone "5551234567")) (.submit (.ok ())) =
        ({ modalStepState (modalStepState initialModalState
            (.input .email "a@b.com")) (.input .phone "5551234567") with
           fieldErrors := computeFieldErrors (modalStepState (modalStepState initialModalState
            (.input .email "a@b.com")) (.input .phone "5551234567")).formData }, 0) :=
  ⟨by decide,
   (createStudent_invalid_no_network
      (modalStepState (modalStepState initialModalState
        (.input .email "a@b.com")) (.input .phone "5551234567")) (.ok ())).1
    (ModalReachable.next _ _ (ModalReachable.next _ _ ModalReachable.init))
    (by decide)⟩

end SuperCoach
